import Mathlib

/-!
Shallow embedding of the `json-parser-demo` repository (Rust sources
`src/tokenize.rs`, `src/parse.rs`, `src/lib.rs`) together with theorems
settling the specification claims about it.

Modelling conventions:
* Rust `String` / `&[char]` data is modelled as `List Char`.
* Rust `f64` numbers are modelled as `ℚ` carrying the exact value of the
  decimal literal that produced them.  Every number compared by a claim in
  this development arises from a short decimal literal, and two such
  literals are equal as `f64` exactly when they are equal as the rationals
  denoted by the literals, so the rounding step of `str::parse::<f64>` is
  abstracted away.
* A Rust function that can panic (out-of-bounds slice indexing, `todo!()`)
  is modelled with the result type `Res`, whose `panic` constructor marks a
  runtime fault.  The `fuelOut` constructor is an artefact of the fuel used
  to express the source's loops; the entry points hand every loop more fuel
  than the number of iterations the source can perform, so `fuelOut` models
  no behaviour of the source and never arises on the inputs evaluated here.
* Rust's `HashMap<String, Value>` is modelled as an association list in
  first-insertion order, with `HashMap::insert`'s overwrite semantics.
-/

namespace JsonDemo

/-- Result of running a piece of Rust code that may return a value, return
an error, or fault at runtime (panic).  `fuelOut` is the fuel artefact
described in the file header; it corresponds to no source behaviour. -/
inductive Res (ε α : Type) where
  | ok (a : α)
  | err (e : ε)
  | panic
  | fuelOut
deriving DecidableEq, Repr

/-- Errors of `tokenize` (src/tokenize.rs, enum `TokenizeError`). -/
inductive TokenizeError where
  | UnfinishedLiteralValue
  | ParseNumberError
  | UnclosedQuotes
  | UnexpectedEof
  | CharNotRecognized (c : Char)
deriving DecidableEq, Repr

/-- Lexical tokens (src/tokenize.rs, enum `Token`).  `Number` carries the
exact rational value of the numeric literal (see the file header). -/
inductive Token where
  | LeftBrace
  | RightBrace
  | LeftBracket
  | RightBracket
  | Comma
  | Colon
  | Null
  | False
  | True
  | Number (num : ℚ)
  | String (s : List Char)
deriving DecidableEq, Repr

/-- Rust `char::is_ascii_whitespace`: space, tab, line feed, form feed,
carriage return. -/
def isAsciiWhitespace (c : Char) : Bool :=
  c = ' ' || c = '\t' || c = '\n' || c = '\x0c' || c = '\r'

/-- Whitespace-skipping loop at the top of `make_token`
(src/tokenize.rs lines 16-24).  Faithfully, the guard is
`*index > chars.len()` — not `>=` — so when the incremented index lands
exactly at `chars.len()` the subsequent `chars[*index]` faults. -/
def wsLoop (chars : List Char) (fuel : Nat) (ch : Char) (index : Nat) :
    Res TokenizeError (Char × Nat) :=
  if isAsciiWhitespace ch then
    let j := index + 1
    if chars.length < j then .err .UnexpectedEof
    else
      match chars.get? j with
      | none => .panic
      | some ch2 =>
        match fuel with
        | 0 => .fuelOut
        | fuel + 1 => wsLoop chars fuel ch2 j
  else .ok (ch, index)

/-- Keyword-matching loop shared by `tokenize_null` / `tokenize_true` /
`tokenize_false` (src/tokenize.rs lines 59-90): compare the expected
keyword character by character against `chars[*index]`, advancing the
index, then step the index back by one at the end. -/
def matchKeyword (chars : List Char) (index : Nat) :
    List Char → Res TokenizeError Nat
  | [] => .ok (index - 1)
  | expected_char :: rest =>
    match chars.get? index with
    | none => .panic
    | some ch =>
      if expected_char ≠ ch then .err .UnfinishedLiteralValue
      else matchKeyword chars (index + 1) rest

/-- Model of `tokenize_null` (src/tokenize.rs lines 59-68). -/
def tokenize_null (chars : List Char) (index : Nat) :
    Res TokenizeError (Token × Nat) :=
  match matchKeyword chars index ("null".toList) with
  | .ok i => .ok (.Null, i)
  | .err e => .err e
  | .panic => .panic
  | .fuelOut => .fuelOut

/-- Model of `tokenize_false` (src/tokenize.rs lines 70-79). -/
def tokenize_false (chars : List Char) (index : Nat) :
    Res TokenizeError (Token × Nat) :=
  match matchKeyword chars index ("false".toList) with
  | .ok i => .ok (.False, i)
  | .err e => .err e
  | .panic => .panic
  | .fuelOut => .fuelOut

/-- Model of `tokenize_true` (src/tokenize.rs lines 81-90). -/
def tokenize_true (chars : List Char) (index : Nat) :
    Res TokenizeError (Token × Nat) :=
  match matchKeyword chars index ("true".toList) with
  | .ok i => .ok (.True, i)
  | .err e => .err e
  | .panic => .panic
  | .fuelOut => .fuelOut

/-- Digit/decimal-point scanning loop of `tokenize_float`
(src/tokenize.rs lines 96-107): greedily take ASCII digits, plus one `.`
while no decimal point has been seen; stop at the first other character
or at end of input.  Returns the accumulated literal and the index of the
first unconsumed position. -/
def floatLoop (chars : List Char) (fuel : Nat) (cur_idx : Nat)
    (acc : List Char) (has_decimal : Bool) : Option (List Char × Nat) :=
  match chars.get? cur_idx with
  | none => some (acc, cur_idx)
  | some ch =>
    if ch.isDigit then
      match fuel with
      | 0 => none
      | fuel + 1 => floatLoop chars fuel (cur_idx + 1) (acc ++ [ch]) has_decimal
    else if ch = '.' && !has_decimal then
      match fuel with
      | 0 => none
      | fuel + 1 => floatLoop chars fuel (cur_idx + 1) (acc ++ [ch]) true
    else some (acc, cur_idx)

/-- Value of a digit string, most significant first. -/
def digitsToNat (ds : List Char) : Nat :=
  ds.foldl (fun a c => a * 10 + (c.toNat - 48)) 0

/-- Model of Rust `str::parse::<f64>` restricted to the strings
`tokenize_float` can accumulate (ASCII digits with at most one embedded
`.`), returning the exact decimal value; `none` models a parse failure
(e.g. the empty string). -/
def parseDecimal? (s : List Char) : Option ℚ :=
  let intPart := s.takeWhile (fun c => c.isDigit)
  let rest := s.dropWhile (fun c => c.isDigit)
  match rest with
  | [] => if intPart.isEmpty then none else some ((digitsToNat intPart : ℚ))
  | '.' :: frac =>
    if (intPart.isEmpty && frac.isEmpty) || !(frac.all (fun c => c.isDigit))
    then none
    else some ((digitsToNat intPart : ℚ) +
      (digitsToNat frac : ℚ) / (10 : ℚ) ^ frac.length)
  | _ => none

/-- Model of `tokenize_float` (src/tokenize.rs lines 92-113): scan the
literal, step the cursor back by one, parse the accumulated string. -/
def tokenize_float (chars : List Char) (cur_idx : Nat) :
    Res TokenizeError (Token × Nat) :=
  match floatLoop chars (chars.length + 1) cur_idx [] false with
  | none => .fuelOut
  | some (unparsed_num, j) =>
    match parseDecimal? unparsed_num with
    | some num => .ok (.Number num, j - 1)
    | none => .err .ParseNumberError

/-- String-scanning loop of `tokenize_string` (src/tokenize.rs lines
119-131): advance the cursor first, fail with `UnclosedQuotes` at end of
input, break on an unescaped `"` (which is not pushed), toggle the escape
flag on `\` (which is pushed), push every other character. -/
def strLoop (chars : List Char) (fuel : Nat) (cur_idx : Nat)
    (acc : List Char) (is_escaping : Bool) :
    Res TokenizeError (List Char × Nat) :=
  let j := cur_idx + 1
  match chars.get? j with
  | none => .err .UnclosedQuotes
  | some ch =>
    if ch = '"' && !is_escaping then .ok (acc, j)
    else
      match fuel with
      | 0 => .fuelOut
      | fuel + 1 =>
        if ch = '\\' then strLoop chars fuel j (acc ++ [ch]) (!is_escaping)
        else strLoop chars fuel j (acc ++ [ch]) false

/-- Model of `tokenize_string` (src/tokenize.rs lines 115-133): the raw,
still-escaped text between the quotes becomes the token. -/
def tokenize_string (chars : List Char) (cur_idx : Nat) :
    Res TokenizeError (Token × Nat) :=
  match strLoop chars (chars.length + 1) cur_idx [] false with
  | .ok (s, j) => .ok (.String s, j)
  | .err e => .err e
  | .panic => .panic
  | .fuelOut => .fuelOut

/-- Model of `make_token` (src/tokenize.rs lines 15-42): read the current
character (faulting when out of bounds), skip whitespace, then dispatch on
the character exactly as the source `match` does.  Returns the produced
token and the final cursor position. -/
def make_token (chars : List Char) (index : Nat) :
    Res TokenizeError (Token × Nat) :=
  match chars.get? index with
  | none => .panic
  | some ch0 =>
    match wsLoop chars (chars.length + 1) ch0 index with
    | .err e => .err e
    | .panic => .panic
    | .fuelOut => .fuelOut
    | .ok (ch, i) =>
      if ch = '[' then .ok (.LeftBracket, i)
      else if ch = ']' then .ok (.RightBracket, i)
      else if ch = '\x7b' then .ok (.LeftBrace, i)
      else if ch = '\x7d' then .ok (.RightBrace, i)
      else if ch = ',' then .ok (.Comma, i)
      else if ch = ':' then .ok (.Colon, i)
      else if ch = 'n' then tokenize_null chars i
      else if ch = 't' then tokenize_true chars i
      else if ch = 'f' then tokenize_false chars i
      else if ch.isDigit then tokenize_float chars i
      else if ch = '"' then tokenize_string chars i
      else .err (.CharNotRecognized ch)

/-- Main loop of `tokenize` (src/tokenize.rs lines 6-10): while the cursor
is in bounds, produce a token, push it, advance by one.  Each successful
`make_token` consumes at least one character, so `chars.length + 1` units
of fuel exceed the possible number of iterations. -/
def tokenizeLoop (chars : List Char) (fuel : Nat) (index : Nat)
    (tokens : List Token) : Res TokenizeError (List Token) :=
  if index < chars.length then
    match fuel with
    | 0 => .fuelOut
    | fuel + 1 =>
      match make_token chars index with
      | .ok (t, i2) => tokenizeLoop chars fuel (i2 + 1) (tokens ++ [t])
      | .err e => .err e
      | .panic => .panic
      | .fuelOut => .fuelOut
  else .ok tokens

/-- Model of `tokenize` (src/tokenize.rs lines 1-13). -/
def tokenize (input : List Char) : Res TokenizeError (List Token) :=
  tokenizeLoop input (input.length + 1) 0 []

/-- Errors of the token-level parser (src/parse.rs, enum
`TokenParseError`). -/
inductive TokenParseError where
  | UnfinishedEscape
  | InvalidHexValue
  | InvalidCodePointValue
  | ExpectedComma
  | ExpectedProperty
  | ExpectedColon
deriving DecidableEq, Repr

/-- Errors of `parse` (src/parse.rs, enum `ParseError`): either a
propagated tokenize failure or a structural parse failure. -/
inductive ParseError where
  | TokenizeError (e : TokenizeError)
  | ParseError (e : TokenParseError)
deriving DecidableEq, Repr

/-- Parsed JSON values (src/lib.rs, enum `Value`).  `Object` is the
association-list model of `HashMap<String, Value>` described in the file
header. -/
inductive Value where
  | Null
  | Boolean (b : Bool)
  | String (s : List Char)
  | Number (q : ℚ)
  | Array (vs : List Value)
  | Object (entries : List (List Char × Value))

/-- Rust `char::to_digit(16)`: hexadecimal digit value of a character. -/
def hexDigit? (c : Char) : Option Nat :=
  if '0' ≤ c ∧ c ≤ '9' then some (c.toNat - '0'.toNat)
  else if 'a' ≤ c ∧ c ≤ 'f' then some (c.toNat - 'a'.toNat + 10)
  else if 'A' ≤ c ∧ c ≤ 'F' then some (c.toNat - 'A'.toNat + 10)
  else none

/-- Rust `char::from_u32`: `some` exactly on Unicode scalar values. -/
def charFromU32? (n : Nat) : Option Char :=
  if n.isValidChar then some (Char.ofNat n) else none

/-- The `for i in 0..4` loop of the `u` escape arm in `parse_string`
(src/parse.rs lines 86-93), counting down `n = 4 - i`: pull the next
character (`UnfinishedEscape` when the input is exhausted), convert it to
a hex digit (`InvalidHexValue` on failure) and add `16^(3-i) * digit`
(that is, `16^n * digit` for the countdown) to the running sum. -/
def uEscape : Nat → Nat → List Char → Except TokenParseError (Nat × List Char)
  | 0, sum, rest => .ok (sum, rest)
  | n + 1, sum, rest =>
    match rest with
    | [] => .error .UnfinishedEscape
    | next_char :: rest2 =>
      match hexDigit? next_char with
      | none => .error .InvalidHexValue
      | some digit => uEscape n (sum + 16 ^ n * digit) rest2

/-- Map of `Res.ok`, leaving every other outcome unchanged. -/
def Res.map {ε α β : Type} (f : α → β) : Res ε α → Res ε β
  | .ok a => .ok (f a)
  | .err e => .err e
  | .panic => .panic
  | .fuelOut => .fuelOut

/-- Main loop of `parse_string` (src/parse.rs lines 73-106), written as
recursion over the remaining characters with the `is_escaping` flag as
state.  In escaping state the escape character is dispatched exactly as
the source `match` does — note the source maps `f` to U+0012; unknown
escapes are passed through literally — and otherwise a backslash enters
escaping state and every other character is pushed.  Each step consumes
at least one character, so fuel exceeding the input length never runs
out. -/
def unescape (fuel : Nat) (is_escaping : Bool) (input : List Char) :
    Res TokenParseError (List Char) :=
  match input with
  | [] => .ok []
  | next_char :: rest =>
    match fuel with
    | 0 => .fuelOut
    | fuel + 1 =>
      if is_escaping then
        if next_char = '"' then
          (unescape fuel false rest).map (fun o => '"' :: o)
        else if next_char = '\\' then
          (unescape fuel false rest).map (fun o => '\\' :: o)
        else if next_char = 'b' then
          (unescape fuel false rest).map (fun o => '\x08' :: o)
        else if next_char = 'f' then
          (unescape fuel false rest).map (fun o => '\x12' :: o)
        else if next_char = 'n' then
          (unescape fuel false rest).map (fun o => '\n' :: o)
        else if next_char = 'r' then
          (unescape fuel false rest).map (fun o => '\x0d' :: o)
        else if next_char = 't' then
          (unescape fuel false rest).map (fun o => '\t' :: o)
        else if next_char = 'u' then
          match uEscape 4 0 rest with
          | .error e => .err e
          | .ok (sum, rest2) =>
            match charFromU32? sum with
            | none => .err .InvalidCodePointValue
            | some unescaped_char =>
              (unescape fuel false rest2).map (fun o => unescaped_char :: o)
        else (unescape fuel false rest).map (fun o => next_char :: o)
      else if next_char = '\\' then unescape fuel true rest
      else (unescape fuel false rest).map (fun o => next_char :: o)

/-- Model of `parse_string` (src/parse.rs lines 70-108): unescape the raw
token text and wrap it as a `Value::String`. -/
def parse_string (input : List Char) : Res TokenParseError Value :=
  (unescape (input.length + 1) false input).map Value.String

/-- Rust `HashMap::insert` on the association-list model: overwrite the
value at an existing key (last write wins), otherwise append the new
entry. -/
def mapInsert (object : List (List Char × Value)) (key : List Char)
    (value : Value) : List (List Char × Value) :=
  match object with
  | [] => [(key, value)]
  | (k, v) :: rest =>
    if k = key then (key, value) :: rest
    else (k, v) :: mapInsert rest key value

mutual

/-- Model of `parse_tokens` (src/parse.rs lines 34-52): read the token at
the cursor (faulting when the cursor is out of bounds), advance past
scalar tokens, dispatch.  The source's `_ => todo!()` catch-all on the
punctuation tokens is a fault.  Returns the value and the final cursor. -/
def parse_tokens (fuel : Nat) (tokens : List Token) (index : Nat) :
    Res TokenParseError (Value × Nat) :=
  match fuel with
  | 0 => .fuelOut
  | fuel + 1 =>
    match tokens.get? index with
    | none => .panic
    | some t =>
      match t with
      | .Null => .ok (.Null, index + 1)
      | .False => .ok (.Boolean false, index + 1)
      | .True => .ok (.Boolean true, index + 1)
      | .Number num => .ok (.Number num, index + 1)
      | .String s =>
        match parse_string s with
        | .ok v => .ok (v, index + 1)
        | .err e => .err e
        | .panic => .panic
        | .fuelOut => .fuelOut
      | .LeftBracket => parse_array_loop fuel tokens index []
      | .LeftBrace => parse_object_loop fuel tokens index []
      | _ => .panic

/-- Loop of `parse_array` (src/parse.rs lines 111-142) with the
accumulated elements as an argument: advance the cursor, break on `]`
(checked with `==` at the top of every iteration, before parsing an
element), otherwise parse one value and then dispatch on the following
token — `,` continues, `]` terminates, anything else is `ExpectedComma`.
Every `tokens[*index]` access faults when out of bounds. -/
def parse_array_loop (fuel : Nat) (tokens : List Token) (index : Nat)
    (array : List Value) : Res TokenParseError (Value × Nat) :=
  match fuel with
  | 0 => .fuelOut
  | fuel + 1 =>
    let j := index + 1
    match tokens.get? j with
    | none => .panic
    | some t =>
      if t = .RightBracket then .ok (.Array array, j + 1)
      else
        match parse_tokens fuel tokens j with
        | .ok (value, k) =>
          match tokens.get? k with
          | none => .panic
          | some t2 =>
            match t2 with
            | .Comma => parse_array_loop fuel tokens k (array ++ [value])
            | .RightBracket => .ok (.Array (array ++ [value]), k + 1)
            | _ => .err .ExpectedComma
        | .err e => .err e
        | .panic => .panic
        | .fuelOut => .fuelOut

/-- Loop of `parse_object` (src/parse.rs lines 144-181) with the
accumulated mapping as an argument: advance the cursor, break on `}`
(checked with `==` at the top of every iteration), otherwise require a
`String` key (else `ExpectedProperty`) and a `Colon` (else
`ExpectedColon`), parse the entry's value, insert the entry — the key is
`s.clone()`, the raw token text — and then dispatch on the following
token: `,` continues, `}` terminates, anything else is `ExpectedComma`.
Every `tokens[*index]` access faults when out of bounds. -/
def parse_object_loop (fuel : Nat) (tokens : List Token) (index : Nat)
    (object : List (List Char × Value)) : Res TokenParseError (Value × Nat) :=
  match fuel with
  | 0 => .fuelOut
  | fuel + 1 =>
    let j := index + 1
    match tokens.get? j with
    | none => .panic
    | some t =>
      if t = .RightBrace then .ok (.Object object, j + 1)
      else
        match t with
        | .String s =>
          let j2 := j + 1
          match tokens.get? j2 with
          | none => .panic
          | some t2 =>
            match t2 with
            | .Colon =>
              match parse_tokens fuel tokens (j2 + 1) with
              | .ok (value, k) =>
                let object2 := mapInsert object s value
                match tokens.get? k with
                | none => .panic
                | some t3 =>
                  match t3 with
                  | .Comma => parse_object_loop fuel tokens k object2
                  | .RightBrace => .ok (.Object object2, k + 1)
                  | _ => .err .ExpectedComma
              | .err e => .err e
              | .panic => .panic
              | .fuelOut => .fuelOut
            | _ => .err .ExpectedColon
        | _ => .err .ExpectedProperty

end

/-- Model of `parse` (src/parse.rs lines 10-14): tokenize, then run the
token parser from cursor 0, wrapping each error family.  The fuel handed
to the parser exceeds the number of steps the source can take on the
given token sequence (each step consumes at least one token). -/
def parse (input : List Char) : Res ParseError Value :=
  match tokenize input with
  | .ok tokens =>
    match parse_tokens (2 * tokens.length + 2) tokens 0 with
    | .ok (value, _) => .ok value
    | .err e => .err (.ParseError e)
    | .panic => .panic
    | .fuelOut => .fuelOut
  | .err e => .err (.TokenizeError e)
  | .panic => .panic
  | .fuelOut => .fuelOut

/-- Hex digit character (lower case) of a value below 16. -/
def hexCharOf (n : Nat) : Char :=
  if n < 10 then Char.ofNat (48 + n) else Char.ofNat (87 + n)

/-- Modelled from the spec: JSON escaping of one character for the
reference serializer (serialization is out of scope of the repository,
§1 of the spec; the wire format is RFC 8259).  Quote and backslash are
escaped, control characters use their short escapes or a `\u00XX`
escape, and every other character stands for itself. -/
def escapeChar (c : Char) : List Char :=
  if c = '"' then ['\\', '"']
  else if c = '\\' then ['\\', '\\']
  else if c.toNat = 8 then ['\\', 'b']
  else if c.toNat = 12 then ['\\', 'f']
  else if c = '\n' then ['\\', 'n']
  else if c.toNat = 13 then ['\\', 'r']
  else if c = '\t' then ['\\', 't']
  else if c.toNat < 32 then
    ['\\', 'u', '0', '0', hexCharOf (c.toNat / 16), hexCharOf (c.toNat % 16)]
  else [c]

/-- Modelled from the spec: JSON string-body escaping for the reference
serializer. -/
def escapeString (s : List Char) : List Char :=
  (s.map escapeChar).flatten

/-- Modelled from the spec: decimal rendering of a number for the
reference serializer.  Exact for every rational whose denominator divides
a power of ten — which covers every 64-bit float, the spec's number type
(§3). -/
def serializeNum (q : ℚ) : List Char :=
  let sign : List Char := if q < 0 then ['-'] else []
  let n := q.num.natAbs
  let d := q.den
  if d = 1 then sign ++ Nat.toDigits 10 n
  else
    let k := Nat.log 2 d + Nat.log 5 d + 1
    let scaled := n * 10 ^ k / d
    let fracDigits := Nat.toDigits 10 (scaled % 10 ^ k)
    sign ++ Nat.toDigits 10 (scaled / 10 ^ k) ++
      '.' :: (List.replicate (k - fracDigits.length) '0' ++ fracDigits)

mutual

/-- Modelled from the spec: the correct reference JSON serializer that §8
of the spec quantifies over ("for every Value `v` produced by a correct
serializer"); it is not part of the repository (out of scope, §1). -/
def serialize : Value → List Char
  | .Null => ("null".toList)
  | .Boolean true => ("true".toList)
  | .Boolean false => ("false".toList)
  | .Number q => serializeNum q
  | .String s => '"' :: (escapeString s ++ ['"'])
  | .Array vs => '[' :: (serializeElems vs ++ [']'])
  | .Object es => '\x7b' :: (serializeEntries es ++ ['\x7d'])

/-- Modelled from the spec: comma-separated serialization of array
elements. -/
def serializeElems : List Value → List Char
  | [] => []
  | [v] => serialize v
  | v :: vs => serialize v ++ ',' :: serializeElems vs

/-- Modelled from the spec: comma-separated serialization of object
entries as quoted escaped key, colon, value. -/
def serializeEntries : List (List Char × Value) → List Char
  | [] => []
  | [(k, v)] => '"' :: (escapeString k ++ '"' :: ':' :: serialize v)
  | (k, v) :: es =>
    ('"' :: (escapeString k ++ '"' :: ':' :: serialize v)) ++
      ',' :: serializeEntries es

end

/-- Continuation of the `u` escape arm of `parse_string` once the four
hex digits have been summed (src/parse.rs lines 94-96): `char::from_u32`
of the sum, `InvalidCodePointValue` when it is no Unicode scalar value,
otherwise the character is pushed and unescaping continues. -/
def uEscapeResult (fuel : Nat) (rest : List Char) (sum : Nat) :
    Res TokenParseError (List Char) :=
  match charFromU32? sum with
  | none => .err .InvalidCodePointValue
  | some unescaped_char =>
    (unescape fuel false rest).map (fun o => unescaped_char :: o)

/-- C1: the claim says that on input whose array or object is opened but
never closed, `parse` returns an unterminated-array / unterminated-object
error value and every cursor access is total.  The code instead indexes
past the end of the token sequence: on both spec examples, `"[1,2"` and
the unterminated object text, the model faults (`panic`), returning no
error value. -/
theorem c1_unterminated_input_faults :
    parse ("[1,2".toList) = .panic ∧
    parse ("\x7b\"a\":1".toList) = .panic :=
  ⟨rfl, rfl⟩

/-- C2: the claim says `tokenize("-123")` yields `[Number(-123.0)]` and
`tokenize("123.4")` yields `[Number(123.4)]`.  The dispatch in
`make_token` has no arm for `-`, so the first input is rejected with
`CharNotRecognized('-')` (contradicting the repository's own
`negative_integer` test); the fractional case works as claimed. -/
theorem c2_number_tokenizing :
    tokenize ("-123".toList) = .err (.CharNotRecognized '-') ∧
    tokenize ("123.4".toList) = .ok [.Number (123.4 : ℚ)] := by
  refine ⟨rfl, ?_⟩
  have h : tokenize ("123.4".toList) =
      .ok [.Number ((digitsToNat ['1', '2', '3'] : ℚ) +
        (digitsToNat ['4'] : ℚ) / (10 : ℚ) ^ (['4'].length))] := rfl
  rw [h]
  have e1 : digitsToNat ['1', '2', '3'] = 123 := rfl
  have e2 : digitsToNat ['4'] = 4 := rfl
  rw [e1, e2]
  norm_num

/-- C3: the claim says that when the character cursor reaches end of
input while skipping whitespace after the last token, `tokenize`
terminates normally with the tokens produced so far.  The whitespace loop
in `make_token` guards with `index > chars.len()` instead of `>=`, so
when the cursor lands exactly at the end it dereferences `chars[len]`
and faults: both a token followed by trailing whitespace and all-white
input fault instead of returning `Ok`. -/
theorem c3_trailing_whitespace_faults :
    tokenize ("true ".toList) = .panic ∧
    tokenize (" ".toList) = .panic :=
  ⟨rfl, rfl⟩

/-- C4 counterexample: the claim says the object key inserted into the
mapping is the string-unescaped form of the String token's raw text.  On
the concrete input whose single key is written with the escape `\u0041`,
the parser stores the raw six-character text, although its unescaped form
is `A`: the key is not unescaped. -/
theorem c4_counterexample_raw_key :
    parse ("\x7b\"\\u0041\":1\x7d".toList) =
      .ok (.Object [(['\\', 'u', '0', '0', '4', '1'], .Number 1)]) ∧
    parse_string (['\\', 'u', '0', '0', '4', '1']) = .ok (.String ['A']) ∧
    (['\\', 'u', '0', '0', '4', '1'] : List Char) ≠ ['A'] :=
  ⟨rfl, rfl, by decide⟩

/-- C4 amended: when parsing an object entry the key inserted into the
mapping is the raw (still-escaped) text of the String token — the source
clones the token text without unescaping it — for every raw key and every
entry value. -/
theorem c4_amended_key_is_raw_text (k : Nat) (s : List Char) (q : ℚ) :
    parse_tokens (k + 3)
        [.LeftBrace, .String s, .Colon, .Number q, .RightBrace] 0 =
      .ok (.Object [(s, .Number q)], 5) :=
  rfl

/-- C5: the claim says the escape `\f` unescapes to U+000C (form feed).
The source's escape arm pushes `'\u{12}'`, so the produced string holds
U+0012, not U+000C — the spec itself flags this as a defect of the code
(§9). -/
theorem c5_formfeed_wrong_code_point :
    parse_string (['\\', 'f']) = .ok (.String ['\x12']) ∧
    parse ("\"\\f\"".toList) = .ok (.String ['\x12']) ∧
    ('\x12' : Char) ≠ '\x0c' :=
  ⟨rfl, rfl, by decide⟩

/-- C6 counterexample: the claim says input with a trailing comma before
a closing bracket or brace is rejected.  Both spec examples are accepted:
`"[1,]"` parses to the one-element array and the object text with a
trailing comma parses to the one-entry object, because the loops of
`parse_array` and `parse_object` re-check for the closing token at the
top of every iteration. -/
theorem c6_counterexample_trailing_comma :
    parse ("[1,]".toList) = .ok (.Array [.Number 1]) ∧
    parse ("\x7b\"a\":1,\x7d".toList) = .ok (.Object [(['a'], .Number 1)]) :=
  ⟨rfl, rfl⟩

/-- C6 amended: a trailing comma immediately before a closing bracket or
brace is accepted, and the input parses to the same value as the text
without the trailing comma. -/
theorem c6_amended_trailing_comma_accepted :
    parse ("[1,]".toList) = parse ("[1]".toList) ∧
    parse ("\x7b\"a\":1,\x7d".toList) = parse ("\x7b\"a\":1\x7d".toList) :=
  ⟨rfl, rfl⟩

/-- C7: duplicate object keys resolve last-write-wins — parsing the
duplicate-key object text succeeds and maps the single key `a` to
`Number 2`, the later value overwriting the earlier one. -/
theorem c7_duplicate_keys_last_write_wins :
    parse ("\x7b\"a\":1,\"a\":2\x7d".toList) =
      .ok (.Object [(['a'], .Number 2)]) :=
  rfl

/-- C8: in string unescaping, `\u` followed by four hex digits produces
the character with that code point (`InvalidCodePointValue` when the sum
is no Unicode scalar value) — stated for every fuel, digits and
continuation; with fewer than four (hex) characters remaining the result
is `UnfinishedEscape`; and on the spec's concrete examples: `"\u0041"`
parses to `A`, `"\u12"` fails with `UnfinishedEscape`, a non-hex digit in
the four-character span fails with `InvalidHexValue`, and `"\uD800"`
fails with `InvalidCodePointValue`. -/
theorem c8_unicode_escape :
    (∀ (f : Nat) (d1 d2 d3 d4 : Char) (rest : List Char)
        (v1 v2 v3 v4 : Nat),
      hexDigit? d1 = some v1 → hexDigit? d2 = some v2 →
      hexDigit? d3 = some v3 → hexDigit? d4 = some v4 →
      unescape (f + 1) true ('u' :: d1 :: d2 :: d3 :: d4 :: rest) =
        uEscapeResult f rest
          (0 + 16 ^ 3 * v1 + 16 ^ 2 * v2 + 16 ^ 1 * v3 + 16 ^ 0 * v4)) ∧
    (∀ (f : Nat) (short : List Char),
      short.length < 4 → (short.all fun c => (hexDigit? c).isSome) →
      unescape (f + 1) true ('u' :: short) = .err .UnfinishedEscape) ∧
    parse ("\"\\u0041\"".toList) = .ok (.String ['A']) ∧
    parse ("\"\\u12\"".toList) = .err (.ParseError .UnfinishedEscape) ∧
    parse ("\"\\u00G1\"".toList) = .err (.ParseError .InvalidHexValue) ∧
    parse ("\"\\uD800\"".toList) = .err (.ParseError .InvalidCodePointValue)
    := by
  refine ⟨?_, ?_, rfl, rfl, rfl, rfl⟩
  · intro f d1 d2 d3 d4 rest v1 v2 v3 v4 h1 h2 h3 h4
    simp [unescape, uEscape, h1, h2, h3, h4, uEscapeResult]
  · intro f short hlen hhex
    match short with
    | [] => simp [unescape, uEscape]
    | [a] =>
      simp only [List.all_cons, List.all_nil, Bool.and_true] at hhex
      obtain ⟨va, hva⟩ := Option.isSome_iff_exists.mp hhex
      simp [unescape, uEscape, hva]
    | [a, b] =>
      simp only [List.all_cons, List.all_nil, Bool.and_true,
        Bool.and_eq_true] at hhex
      obtain ⟨va, hva⟩ := Option.isSome_iff_exists.mp hhex.1
      obtain ⟨vb, hvb⟩ := Option.isSome_iff_exists.mp hhex.2
      simp [unescape, uEscape, hva, hvb]
    | [a, b, c] =>
      simp only [List.all_cons, List.all_nil, Bool.and_true,
        Bool.and_eq_true] at hhex
      obtain ⟨va, hva⟩ := Option.isSome_iff_exists.mp hhex.1
      obtain ⟨vb, hvb⟩ := Option.isSome_iff_exists.mp hhex.2.1
      obtain ⟨vc, hvc⟩ := Option.isSome_iff_exists.mp hhex.2.2
      simp [unescape, uEscape, hva, hvb, hvc]
    | _ :: _ :: _ :: _ :: _ =>
      simp only [List.length_cons] at hlen
      omega

/-- C8 witness: the general parts of `c8_unicode_escape` instantiated at
the digits `0041` with empty continuation and at the short hex span `12`. -/
theorem c8_unicode_escape_witness :
    unescape 1 true ('u' :: '0' :: '0' :: '4' :: '1' :: []) =
      uEscapeResult 0 []
        (0 + 16 ^ 3 * 0 + 16 ^ 2 * 0 + 16 ^ 1 * 4 + 16 ^ 0 * 1) ∧
    unescape 1 true ('u' :: '1' :: '2' :: []) = .err .UnfinishedEscape :=
  ⟨c8_unicode_escape.1 0 '0' '0' '4' '1' [] 0 0 4 1 rfl rfl rfl rfl,
   c8_unicode_escape.2.1 0 ['1', '2'] (by decide) (by decide)⟩

/-- C9: the claim says `parse(serialize(v)) = v` for every Value and a
correct reference serializer.  The round trip already fails on the value
`Number(-123)`: the serializer renders it as `-123`, and `tokenize` has
no arm for `-`, so `parse` returns `CharNotRecognized('-')` instead of
the value (the repository's own `negative_integer` test expects this
input to tokenize). -/
theorem c9_roundtrip_fails_on_negative :
    serialize (.Number (-123)) = ("-123".toList) ∧
    parse ("-123".toList) = .err (.TokenizeError (.CharNotRecognized '-')) :=
  ⟨rfl, rfl⟩

/-- C10: `tokenize` applied to the empty string returns `Ok` with the
empty token sequence — empty input is not a tokenize error. -/
theorem c10_tokenize_empty :
    tokenize ("".toList) = .ok ([] : List Token) :=
  rfl

end JsonDemo
